import Mathlib

/-!
Verification development for the opensarlab-notebooks repository, whose single
source file is the Jupyter notebook
SAR_Training/English/Hazards/LosAngeles_time_series.ipynb.

The notebook is a linear script of cells.  We embed each code cell as a list of
statements of a small Python-subset AST (the constructs the notebook actually
uses: imports, assignments, IPython shell escapes, if statements, try/except,
raise, with blocks, prints and display calls), and give the cells an
operational semantics over a state carrying the variable environment, a model
filesystem and an event trace.  External commands (aws, cp, smallbaselineApp.py,
info.py, ...) are opaque: running one appends start/finish events to the trace;
only the aws download has a modelled filesystem effect, parameterised by the
external world.  Markdown-only cells are embedded with an empty statement list.
-/

/-- Runtime values of the embedded Python fragment: strings, pathlib paths,
IPython SList results (lists of output lines, also used for str.split results
and Python lists of strings), and opaque external objects (modules, widgets,
figures) carrying only a descriptive tag. -/
inductive Value where
  | vstr (s : String)
  | vpath (p : String)
  | vlist (xs : List String)
  | vext (tag : String)
deriving DecidableEq

/-- String rendering of a value, as used for f-string interpolation and for
arguments of shell commands. -/
def Value.render : Value → String
  | .vstr s => s
  | .vpath p => p
  | .vlist xs => String.intercalate " " xs
  | .vext t => t

/-- Expressions of the embedded fragment.  Only the forms the notebook uses:
literals, variable references, pathlib division (p / component), subscripting,
attribute access, zero- and one-argument calls, f-strings of the shape
(one interpolated expression followed by literal text), singleton list
displays, str(...) and .split(). -/
inductive PExpr where
  | lit (s : String)
  | var (n : String)
  | pathDiv (base : PExpr) (comp : String)
  | index (base : PExpr) (i : Nat)
  | attr (base : PExpr) (field : String)
  | call0 (fn : PExpr)
  | call1 (fn : PExpr) (arg : PExpr)
  | fmt1 (e : PExpr) (tail : String)
  | listE1 (e : PExpr)
  | strOf (e : PExpr)
  | splitWs (e : PExpr)
deriving DecidableEq

/-- Python exceptions the notebook can produce: a NameError for an unbound
name, an ImportError for a missing module, and an explicitly raised exception
with its class name and message. -/
inductive Exc where
  | nameErr (n : String)
  | importErr (m : String)
  | raised (cls : String) (msg : String)
deriving DecidableEq

/-- The exception class name, used by except clauses to match. -/
def Exc.cls : Exc → String
  | .nameErr _ => "NameError"
  | .importErr _ => "ImportError"
  | .raised c _ => c

/-- Conditions appearing in the notebook: string equality and inequality
comparisons, and pathlib .exists() / .is_file() checks (negated existence is
how the notebook writes its mkdir guards). -/
inductive Cond where
  | eqS (e : PExpr) (s : String)
  | neS (e : PExpr) (s : String)
  | notExists (p : PExpr)
  | isFile (p : PExpr)
deriving DecidableEq

/-- Model filesystem: regular files, directories, and the member lists of the
zip archives present (keyed by the archive path). -/
structure FS where
  files : List String
  dirs : List String
  zips : List (String × List String)
deriving DecidableEq

def FS.isFile (fs : FS) (p : String) : Bool := decide (p ∈ fs.files)

def FS.pathExists (fs : FS) (p : String) : Bool :=
  decide (p ∈ fs.files) || decide (p ∈ fs.dirs)

def FS.mkdir (fs : FS) (p : String) : FS := { fs with dirs := p :: fs.dirs }

/-- Member names of the zip archive stored at the given path. -/
def FS.members (fs : FS) (zp : String) : List String :=
  match fs.zips.lookup zp with
  | some ms => ms
  | none => []

/-- ZipFile(zp).extractall(dest): every member m of the archive at zp appears
as a file dest/m. -/
def FS.extractTo (fs : FS) (zp : String) (dest : String) : FS :=
  { fs with files := (fs.members zp).map (fun m => dest ++ "/" ++ m) ++ fs.files }

/-- Path.unlink(): the file (and, if it was an archive, its recorded member
list) is removed. -/
def FS.unlink (fs : FS) (p : String) : FS :=
  { fs with files := fs.files.filter (fun q => q != p),
            zips := fs.zips.filter (fun e => e.1 != p) }

/-- A file appearing on disk with the given zip member list (effect of a
successful aws s3 cp of the staged archive). -/
def FS.putFile (fs : FS) (p : String) (ms : List String) : FS :=
  { fs with files := p :: fs.files, zips := (p, ms) :: fs.zips }

/-- Syntactic shell commands as written in the notebook; interpolated
arguments are expressions.  The smallbaselineApp.py invocations are kept
structured: optional positional configuration-file argument, optional
argument of the dostep option, and whether the help option is passed. -/
inductive ShellCmd where
  | awsS3Cp (src : String) (dst : PExpr)
  | cp (src : PExpr) (dst : PExpr)
  | sba (config : Option String) (dostep : Option String) (helpFlag : Bool)
  | other (prog : String) (args : List PExpr)
deriving DecidableEq

/-- Resolved shell commands: all interpolations evaluated to strings. -/
inductive RCmd where
  | awsS3Cp (src : String) (dst : String)
  | cp (src : String) (dst : String)
  | sba (config : Option String) (dostep : Option String) (helpFlag : Bool)
  | other (prog : String) (args : List String)
deriving DecidableEq

/-- Observable events of a notebook run: the start and the completion of an
external shell command, a rendered Markdown display, a printed line, and a
call into an external plotting entry point. -/
inductive Event where
  | shellStart (c : RCmd)
  | shellFinish (c : RCmd)
  | displayed (tag : String)
  | printed (s : String)
  | called (fn : String)
deriving DecidableEq

/-- Statements of the embedded fragment.  extractAllZip models the
with zipfile.ZipFile(...) as zip_ref: zip_ref.extractall(...) block of the
download cell (the zip_ref binding is accounted for in the name analysis);
displayMd models display(Markdown(...)) with the payload abbreviated to a
constant tag; importStmt records the module and the names it binds. -/
inductive Stmt where
  | importStmt (module : String) (binds : List String)
  | assign (n : String) (e : PExpr)
  | subscriptAssign (n : String) (i : Nat) (e : PExpr)
  | shellAssign (n : String) (cmd : ShellCmd)
  | shell (cmd : ShellCmd)
  | ifStmt (c : Cond) (thn : List Stmt) (els : List Stmt)
  | tryStmt (body : List Stmt) (excName : String) (handler : List Stmt)
  | raiseStmt (excName : String) (msg : String)
  | withStmt (ctx : PExpr) (arg : PExpr) (body : List Stmt)
  | extractAllZip (zp : PExpr) (dest : PExpr)
  | unlink (p : PExpr)
  | mkdir (p : PExpr)
  | printE (args : List PExpr)
  | callFn (fn : PExpr) (arg : PExpr)
  | displayMd (tag : String)

/-- The external world a run is parameterised by: the CONDA_PREFIX value, the
JupyterHub user name, the set of importable modules, whether the S3 download
succeeds, the member list of the staged Stack.zip archive, and the initial
filesystem. -/
structure World where
  condaEnv : String
  hubUser : String
  modules : List String
  awsOk : Bool
  stackMembers : List String
  fs0 : FS

/-- Interpreter state: variable environment (association list, most recent
binding first), filesystem, and the event trace in order of occurrence. -/
structure St where
  env : List (String × Value)
  fs : FS
  events : List Event
deriving DecidableEq

def lookupVar (env : List (String × Value)) (n : String) : Option Value :=
  match env with
  | [] => none
  | (m, v) :: rest => if m = n then some v else lookupVar rest n

def setVar (env : List (String × Value)) (n : String) (v : Value) :
    List (String × Value) :=
  (n, v) :: env

/-- Names IPython provides without an import (the notebook relies on display
being a builtin in its first cell, before it is imported). -/
def builtinNames : List String := ["display", "print", "str", "type"]

def initSt (w : World) : St :=
  { env := builtinNames.map (fun n => (n, Value.vext n)), fs := w.fs0, events := [] }

/-- Expression evaluation.  An unbound variable raises NameError.  Calling
Path on a string yields a path, str renders its argument; other calls yield
opaque external objects. -/
def eval (env : List (String × Value)) : PExpr → Except Exc Value
  | .lit s => .ok (.vstr s)
  | .var n =>
    match lookupVar env n with
    | some v => .ok v
    | none => .error (.nameErr n)
  | .pathDiv b c => do
    let v ← eval env b
    pure (.vpath (v.render ++ "/" ++ c))
  | .index b i => do
    let v ← eval env b
    match v with
    | .vlist xs => pure (.vstr (xs.getD i ""))
    | u => pure u
  | .attr b f => do
    let v ← eval env b
    pure (.vext (v.render ++ "." ++ f))
  | .call0 fn => do
    let _ ← eval env fn
    pure (.vext "obj")
  | .call1 fn a => do
    let f ← eval env fn
    let v ← eval env a
    match f with
    | .vext "Path" => pure (.vpath v.render)
    | .vext "str" => pure (.vstr v.render)
    | _ => pure (.vext "obj")
  | .fmt1 e tail => do
    let v ← eval env e
    pure (.vstr (v.render ++ tail))
  | .listE1 e => do
    let v ← eval env e
    pure (.vlist [v.render])
  | .strOf e => do
    let v ← eval env e
    pure (.vstr v.render)
  | .splitWs e => do
    let v ← eval env e
    pure (.vlist (v.render.splitOn " "))

def evalArgs (env : List (String × Value)) : List PExpr → Except Exc (List String)
  | [] => .ok []
  | a :: rest => do
    let v ← eval env a
    let xs ← evalArgs env rest
    pure (v.render :: xs)

def evalCond (env : List (String × Value)) (fs : FS) : Cond → Except Exc Bool
  | .eqS e s => do
    let v ← eval env e
    pure (v.render == s)
  | .neS e s => do
    let v ← eval env e
    pure (v.render != s)
  | .notExists p => do
    let v ← eval env p
    pure (!(fs.pathExists v.render))
  | .isFile p => do
    let v ← eval env p
    pure (fs.isFile v.render)

def resolveCmd (env : List (String × Value)) : ShellCmd → Except Exc RCmd
  | .awsS3Cp src dst => do
    let v ← eval env dst
    pure (.awsS3Cp src v.render)
  | .cp s d => do
    let vs ← eval env s
    let vd ← eval env d
    pure (.cp vs.render vd.render)
  | .sba c d h => pure (.sba c d h)
  | .other p args => do
    let xs ← evalArgs env args
    pure (.other p xs)

/-- Filesystem effect of a resolved external command: only the aws download
is modelled (it creates the staged archive when it succeeds); the remaining
programs are opaque collaborators whose outputs the notebook never reads back
except for display. -/
def shellFx (w : World) (fs : FS) : RCmd → FS
  | .awsS3Cp _ dst => if w.awsOk then fs.putFile dst w.stackMembers else fs
  | _ => fs

/-- The captured value of an assigned IPython shell escape: the two uses in
the notebook capture echo of an environment variable as a one-line SList. -/
def shellResult (w : World) : RCmd → Value
  | .other "echo" ["$JUPYTERHUB_USER"] => .vlist [w.hubUser]
  | .other "echo" ["$CONDA_PREFIX"] => .vlist [w.condaEnv]
  | _ => .vlist []

/-- Syntactic name of a called entry point, used to tag call events. -/
def exprName : PExpr → String
  | .var n => n
  | .attr b f => exprName b ++ "." ++ f
  | _ => "expr"

/-- Sequencing of the semantics: run the continuation on the resulting state
when the first part completed normally, propagate its exception (keeping the
state reached so far) otherwise. -/
def chain (r : St × Option Exc) (k : St → St × Option Exc) : St × Option Exc :=
  match r with
  | (st1, none) => k st1
  | (st1, some ex) => (st1, some ex)

mutual

/-- One step of the operational semantics.  A statement transforms the state
and either completes normally or produces an exception; effects performed
before the exception persist.  An IPython shell escape is blocking: its start
and finish events are appended adjacently, with its (modelled) effect in
between, before the next statement runs. -/
def execStmt (w : World) (st : St) : Stmt → St × Option Exc
  | .importStmt m binds =>
    if w.modules.contains m then
      ({ st with env := binds.foldl (fun e n => (n, Value.vext n) :: e) st.env }, none)
    else
      (st, some (.importErr m))
  | .assign n e =>
    match eval st.env e with
    | .ok v => ({ st with env := setVar st.env n v }, none)
    | .error ex => (st, some ex)
  | .subscriptAssign n i e =>
    match lookupVar st.env n with
    | none => (st, some (.nameErr n))
    | some (.vlist xs) =>
      match eval st.env e with
      | .ok v => ({ st with env := setVar st.env n (.vlist (xs.set i v.render)) }, none)
      | .error ex => (st, some ex)
    | some _ => (st, none)
  | .shellAssign n cmd =>
    match resolveCmd st.env cmd with
    | .ok rc =>
      ({ st with env := setVar st.env n (shellResult w rc),
                 fs := shellFx w st.fs rc,
                 events := st.events ++ [.shellStart rc, .shellFinish rc] }, none)
    | .error ex => (st, some ex)
  | .shell cmd =>
    match resolveCmd st.env cmd with
    | .ok rc =>
      ({ st with fs := shellFx w st.fs rc,
                 events := st.events ++ [.shellStart rc, .shellFinish rc] }, none)
    | .error ex => (st, some ex)
  | .ifStmt c thn els =>
    match evalCond st.env st.fs c with
    | .ok b => cond b (execStmts w st thn) (execStmts w st els)
    | .error ex => (st, some ex)
  | .tryStmt body excName handler =>
    match execStmts w st body with
    | (st1, none) => (st1, none)
    | (st1, some ex) =>
      if ex.cls == excName then execStmts w st1 handler else (st1, some ex)
  | .raiseStmt excName msg => (st, some (.raised excName msg))
  | .withStmt ctx arg body =>
    match eval st.env ctx with
    | .error ex => (st, some ex)
    | .ok _ =>
      match eval st.env arg with
      | .error ex => (st, some ex)
      | .ok _ => execStmts w st body
  | .extractAllZip zp dest =>
    match eval st.env zp with
    | .error ex => (st, some ex)
    | .ok vz =>
      match eval st.env dest with
      | .error ex => (st, some ex)
      | .ok vd => ({ st with fs := st.fs.extractTo vz.render vd.render }, none)
  | .unlink p =>
    match eval st.env p with
    | .error ex => (st, some ex)
    | .ok v => ({ st with fs := st.fs.unlink v.render }, none)
  | .mkdir p =>
    match eval st.env p with
    | .error ex => (st, some ex)
    | .ok v => ({ st with fs := st.fs.mkdir v.render }, none)
  | .printE args =>
    match evalArgs st.env args with
    | .error ex => (st, some ex)
    | .ok xs => ({ st with events := st.events ++ [.printed (String.intercalate " " xs)] }, none)
  | .callFn fn arg =>
    match eval st.env fn with
    | .error ex => (st, some ex)
    | .ok _ =>
      match eval st.env arg with
      | .error ex => (st, some ex)
      | .ok _ => ({ st with events := st.events ++ [.called (exprName fn)] }, none)
  | .displayMd tag => ({ st with events := st.events ++ [.displayed tag] }, none)

def execStmts (w : World) (st : St) : List Stmt → St × Option Exc
  | [] => (st, none)
  | s :: rest => chain (execStmt w st s) (fun st1 => execStmts w st1 rest)

end

/-- A notebook cell: its index in the notebook and its statements. -/
structure Cell where
  id : Nat
  stmts : List Stmt

/-- Running a list of cells in order: a cell that raises an exception halts
the run (the error surfaces to the user and later cells do not execute). -/
def runCells (w : World) (st : St) : List Cell → St × Option Exc
  | [] => (st, none)
  | c :: rest => chain (execStmts w st c.stmts) (fun st1 => runCells w st1 rest)

/-! ## The notebook cells

Transcription of the code cells of LosAngeles_time_series.ipynb.  Cell ids
follow the cell numbering of the file; markdown cells are omitted and cells
holding only commented-out commands are embedded with an empty statement
list.  The Markdown payloads displayed by the environment check are
abbreviated to constant tags (their f-string interpolations play no role in
any property below). -/

def insarEnvPath : String := "/home/jovyan/.local/envs/insar_analysis"

def workDirPath : String :=
  "/home/jovyan/notebooks/SAR_Training/English/Hazards/data_LA"

def successMsg : String := "S3 pre-staged data retrieval was successfull"

def fallbackMsg : String :=
  "Download outside openSarLabs is not supported.\nAs alternative please start from ARIA-tools with the commandline calls provided at the top of this notebook"

/-- Cell 1: url widget setup. -/
def cell1 : Cell :=
  { id := 1,
    stmts := [
      .importStmt "url_widget" ["url_w"],
      .assign "notebookUrl" (.call0 (.attr (.var "url_w") "URLWidget")),
      .callFn (.var "display") (.var "notebookUrl")
    ] }

/-- Cell 2: the environment/kernel check.  env is the captured output of
echo of CONDA_PREFIX; an empty value is replaced by the label of the base
kernel; a value different from the insar_analysis environment produces the
red warning Markdown displays. -/
def cell2 : Cell :=
  { id := 2,
    stmts := [
      .importStmt "IPython.display" ["Markdown"],
      .importStmt "IPython.display" ["display"],
      .assign "notebookUrl" (.attr (.var "notebookUrl") "value"),
      .shellAssign "user" (.other "echo" [.lit "$JUPYTERHUB_USER"]),
      .shellAssign "env" (.other "echo" [.lit "$CONDA_PREFIX"]),
      .ifStmt (.eqS (.index (.var "env") 0) "")
        [.subscriptAssign "env" 0 (.lit "Python 3 (base)")] [],
      .ifStmt (.neS (.index (.var "env") 0) insarEnvPath)
        [ .displayMd "WARNING:",
          .displayMd "This notebook should be run using the insar_analysis conda environment.",
          .displayMd "It is currently using a different environment.",
          .displayMd "Select insar_analysis from the Change Kernel submenu of the Kernel menu.",
          .displayMd "If the insar_analysis environment is not present, use Create_OSL_Conda_Environments.ipynb to create it.",
          .displayMd "Note that you must restart your server after creating a new environment before it is usable by notebooks."
        ] []
    ] }

/-- Cell 4: imports; the mintpy import block is wrapped in try/except and
re-raises ImportError with an explanatory message. -/
def cell4 : Cell :=
  { id := 4,
    stmts := [
      .importStmt "pathlib" ["Path"],
      .importStmt "zipfile" ["zipfile"],
      .tryStmt
        [ .importStmt "numpy" ["np"],
          .importStmt "mintpy"
            ["view", "tsview", "plot_network", "plot_transection", "plot_coherence_matrix"]
        ]
        "ImportError"
        [ .raiseStmt "ImportError" "Looks like mintPy is not fully installed" ],
      .importStmt "opensarlab_lib" ["asfn"]
    ] }

/-- The post-download check of cell 5: if Stack.zip is a file, extract it
into the work directory, print the success message and delete the archive;
otherwise print the fallback instruction. -/
def stackCheckStmt : Stmt :=
  .ifStmt (.isFile (.var "zipped_path"))
    [ .extractAllZip (.strOf (.var "zipped_path")) (.var "work_dir"),
      .printE [.lit successMsg],
      .unlink (.var "zipped_path") ]
    [ .printE [.lit fallbackMsg] ]

/-- Cell 5: work directory setup, S3 retrieval of the staged archive, and
the download verification. -/
def cell5 : Cell :=
  { id := 5,
    stmts := [
      .assign "work_dir" (.call1 (.var "Path") (.lit workDirPath)),
      .ifStmt (.notExists (.var "work_dir")) [.mkdir (.var "work_dir")] [],
      .assign "zipped_path" (.pathDiv (.var "work_dir") "Stack.zip"),
      .shell (.awsS3Cp "s3://asf-jupyter-data-west/Fielding/Stack.zip" (.var "zipped_path")),
      stackCheckStmt
    ] }

/-- Cell 7: ariaDownload command, commented out. -/
def cell7 : Cell := { id := 7, stmts := [] }

/-- Cell 9: ariaTSsetup command, commented out. -/
def cell9 : Cell := { id := 9, stmts := [] }

/-- Cell 11: ariaTSsetup command, commented out. -/
def cell11 : Cell := { id := 11, stmts := [] }

/-- Cell 13: the help invocation of smallbaselineApp.py. -/
def cell13 : Cell := { id := 13, stmts := [.shell (.sba none none true)] }

/-- Cell 15: MintPy directory setup, configuration file copy, and the
load_data step inside the asfn.work_dir context. -/
def cell15 : Cell :=
  { id := 15,
    stmts := [
      .assign "mint_dir" (.pathDiv (.var "work_dir") "MintPy"),
      .printE [.var "mint_dir", .call1 (.var "type") (.var "mint_dir")],
      .ifStmt (.notExists (.var "mint_dir")) [.mkdir (.var "mint_dir")] [],
      .shell (.cp (.pathDiv (.var "work_dir") "LASenDT71.txt") (.var "mint_dir")),
      .withStmt (.attr (.var "asfn") "work_dir") (.var "mint_dir")
        [.shell (.sba (some "LASenDT71.txt") (some "load_data") false)]
    ] }

/-- Cell 17: list the inputs directory. -/
def cell17 : Cell :=
  { id := 17,
    stmts := [
      .assign "input_dir" (.pathDiv (.var "mint_dir") "inputs"),
      .shell (.other "ls" [.var "input_dir"])
    ] }

/-- Cell 19: info.py on the interferogram stack. -/
def cell19 : Cell :=
  { id := 19,
    stmts := [.shell (.other "info.py" [.pathDiv (.var "input_dir") "ifgramStack.h5"])] }

/-- Cell 20: info.py on the geometry file. -/
def cell20 : Cell :=
  { id := 20,
    stmts := [.shell (.other "info.py" [.pathDiv (.var "input_dir") "geometryGeo.h5"])] }

/-- Cell 22: the modify_network step and the network plot. -/
def cell22 : Cell :=
  { id := 22,
    stmts := [
      .withStmt (.attr (.var "asfn") "work_dir") (.var "mint_dir")
        [ .shell (.sba (some "LASenDT71.txt") (some "modify_network") false),
          .callFn (.attr (.var "plot_network") "main")
            (.listE1 (.strOf (.pathDiv (.var "input_dir") "ifgramStack.h5"))) ]
    ] }

/-- Cell 24: mask generation and its display. -/
def cell24 : Cell :=
  { id := 24,
    stmts := [
      .shell (.other "generate_mask.py"
        [ .pathDiv (.var "input_dir") "ifgramStack.h5", .lit "--nonzero", .lit "-o",
          .pathDiv (.var "input_dir") "maskConnComp.h5", .lit "--update" ]),
      .callFn (.attr (.var "view") "main")
        (.listE1 (.strOf (.pathDiv (.var "input_dir") "maskConnComp.h5")))
    ] }

/-- Cell 25: view command, commented out. -/
def cell25 : Cell := { id := 25, stmts := [] }

/-- Cell 27: the reference_point step. -/
def cell27 : Cell :=
  { id := 27,
    stmts := [
      .withStmt (.attr (.var "asfn") "work_dir") (.var "mint_dir")
        [.shell (.sba (some "LASenDT71.txt") (some "reference_point") false)]
    ] }

/-- Cell 29: info.py filtered to the reference attributes. -/
def cell29 : Cell :=
  { id := 29,
    stmts := [
      .shell (.other "info.py"
        [.pathDiv (.var "input_dir") "ifgramStack.h5", .lit "| egrep REF_"])
    ] }

/-- Cell 31: the invert_network step. -/
def cell31 : Cell :=
  { id := 31,
    stmts := [
      .withStmt (.attr (.var "asfn") "work_dir") (.var "mint_dir")
        [.shell (.sba (some "LASenDT71.txt") (some "invert_network") false)]
    ] }

/-- Cell 33: the velocity step. -/
def cell33 : Cell :=
  { id := 33,
    stmts := [
      .withStmt (.attr (.var "asfn") "work_dir") (.var "mint_dir")
        [.shell (.sba (some "LASenDT71.txt") (some "velocity") false)]
    ] }

/-- Cell 34: velocity display. -/
def cell34 : Cell :=
  { id := 34,
    stmts := [
      .assign "scp_args" (.fmt1 (.var "mint_dir") "/velocity.h5 velocity -v -1 1"),
      .callFn (.attr (.var "view") "main") (.splitWs (.var "scp_args"))
    ] }

/-- Cell 37: average spatial coherence display. -/
def cell37 : Cell :=
  { id := 37,
    stmts := [
      .callFn (.attr (.var "view") "main") (.listE1 (.fmt1 (.var "mint_dir") "/avgSpatialCoh.h5"))
    ] }

/-- Cell 39: temporal coherence display. -/
def cell39 : Cell :=
  { id := 39,
    stmts := [
      .callFn (.attr (.var "view") "main")
        (.listE1 (.fmt1 (.var "mint_dir") "/temporalCoherence.h5"))
    ] }

/-- Cell 41: velocity standard deviation display. -/
def cell41 : Cell :=
  { id := 41,
    stmts := [
      .assign "scp_args" (.fmt1 (.var "mint_dir") "/velocity.h5 velocityStd -v 0 0.2"),
      .callFn (.attr (.var "view") "main") (.splitWs (.var "scp_args"))
    ] }

/-- Cell 43: the transect plot, followed by the google_earth step guarded by
the undefined context manager contextSwitch (the other step cells use
asfn.work_dir). -/
def cell43 : Cell :=
  { id := 43,
    stmts := [
      .assign "scp_args"
        (.fmt1 (.var "mint_dir") "/velocity.h5 --start-lalo 33.75 -118.38 --end-lalo 33.72 -118.3 "),
      .callFn (.attr (.var "plot_transection") "main") (.splitWs (.var "scp_args")),
      .withStmt (.var "contextSwitch") (.var "mint_dir")
        [.shell (.sba (some "smallbaselineApp.cfg") (some "google_earth") false)]
    ] }

/-- All code cells, in notebook order. -/
def notebookCells : List Cell :=
  [cell1, cell2, cell4, cell5, cell7, cell9, cell11, cell13, cell15, cell17,
   cell19, cell20, cell22, cell24, cell25, cell27, cell29, cell31, cell33,
   cell34, cell37, cell39, cell41, cell43]

/-! ## Static analyses of the notebook text -/

mutual

/-- The atomic (non-compound) statements of a statement, in textual order;
compound statements contribute the atoms of all their blocks. -/
def stmtAtoms : Stmt → List Stmt
  | .ifStmt _ thn els => stmtsAtoms thn ++ stmtsAtoms els
  | .tryStmt body _ handler => stmtsAtoms body ++ stmtsAtoms handler
  | .withStmt _ _ body => stmtsAtoms body
  | s => [s]

def stmtsAtoms : List Stmt → List Stmt
  | [] => []
  | s :: rest => stmtAtoms s ++ stmtsAtoms rest

end

mutual

/-- Whether a statement contains a try/except construct. -/
def stmtHasTry : Stmt → Bool
  | .ifStmt _ thn els => stmtsHasTry thn || stmtsHasTry els
  | .tryStmt _ _ _ => true
  | .withStmt _ _ body => stmtsHasTry body
  | _ => false

def stmtsHasTry : List Stmt → Bool
  | [] => false
  | s :: rest => stmtHasTry s || stmtsHasTry rest

end

mutual

/-- The conditions of all if statements contained in a statement. -/
def stmtConds : Stmt → List Cond
  | .ifStmt c thn els => c :: (stmtsConds thn ++ stmtsConds els)
  | .tryStmt body _ handler => stmtsConds body ++ stmtsConds handler
  | .withStmt _ _ body => stmtsConds body
  | _ => []

def stmtsConds : List Stmt → List Cond
  | [] => []
  | s :: rest => stmtConds s ++ stmtsConds rest

end

mutual

/-- The atomic statements lying inside a try/except construct (body or
handler), i.e. the statements whose exceptions the notebook catches. -/
def stmtTryAtoms : Stmt → List Stmt
  | .ifStmt _ thn els => stmtsTryAtoms thn ++ stmtsTryAtoms els
  | .tryStmt body _ handler => stmtsAtoms body ++ stmtsAtoms handler
  | .withStmt _ _ body => stmtsTryAtoms body
  | _ => []

def stmtsTryAtoms : List Stmt → List Stmt
  | [] => []
  | s :: rest => stmtTryAtoms s ++ stmtsTryAtoms rest

end

/-- Names a single atomic statement binds: assignment targets, shell-escape
capture targets, imported names, and the zip_ref binding of the
with zipfile.ZipFile block folded into extractAllZip. -/
def atomDefs : Stmt → List String
  | .importStmt _ binds => binds
  | .assign n _ => [n]
  | .subscriptAssign n _ _ => [n]
  | .shellAssign n _ => [n]
  | .extractAllZip _ _ => ["zip_ref"]
  | _ => []

/-- All atomic statements of the notebook, in textual order. -/
def notebookAtoms : List Stmt :=
  (notebookCells.map (fun c => stmtsAtoms c.stmts)).flatten

/-- Every name any statement of the notebook defines or imports. -/
def notebookDefinedNames : List String :=
  (notebookAtoms.map atomDefs).flatten

/-- The shell command of an atomic statement, when it is a shell escape. -/
def atomShellCmd : Stmt → Option ShellCmd
  | .shell c => some c
  | .shellAssign _ c => some c
  | _ => none

/-- All shell commands issued by the notebook, in textual order. -/
def notebookShellCmds : List ShellCmd :=
  notebookAtoms.filterMap atomShellCmd

/-- The processing step of a shell command, when it is a smallbaselineApp.py
invocation carrying the dostep option. -/
def cmdStep : ShellCmd → Option String
  | .sba _ (some s) _ => some s
  | _ => none

/-- The step names the notebook passes to smallbaselineApp.py via the dostep
option, in textual order. -/
def notebookSteps : List String :=
  notebookShellCmds.filterMap cmdStep

/-- The smallbaselineApp.py step invocations of the notebook: the
configuration-file argument and the step name of each, in textual order. -/
def sbaInvocs : List (Option String × String) :=
  notebookShellCmds.filterMap (fun c =>
    match c with
    | .sba cfg (some s) _ => some (cfg, s)
    | _ => none)

/-- Whether a shell command is a smallbaselineApp.py step invocation. -/
def isSbaStep : ShellCmd → Bool
  | .sba _ (some _) _ => true
  | _ => false

/-- The shell commands whose IPython result object the notebook captures in
a variable (the only channel through which the notebook could inspect the
outcome of a shell escape). -/
def boundShellCmds : List ShellCmd :=
  notebookAtoms.filterMap (fun s =>
    match s with
    | .shellAssign _ c => some c
    | _ => none)

/-- The shell commands issued from inside a try/except construct. -/
def tryShellCmds : List ShellCmd :=
  ((notebookCells.map (fun c => stmtsTryAtoms c.stmts)).flatten).filterMap atomShellCmd

/-- Whether an atomic statement raises an exception. -/
def atomRaises : Stmt → Bool
  | .raiseStmt _ _ => true
  | _ => false

/-- Whether a condition checks a failure: the environment-mismatch comparison
(a string inequality against the expected value) and the is_file verification
of the downloaded archive.  The notExists guards in front of mkdir calls and
the equality test substituting a label for an unset CONDA_PREFIX are setup
normalisation, not failure handling. -/
def condFailure : Cond → Bool
  | .neS _ _ => true
  | .isFile _ => true
  | _ => false

/-- Whether a cell contains an original error-handling construct: it catches
an exception, raises an exception, or branches on a failure condition. -/
def cellHandlesErr (c : Cell) : Bool :=
  stmtsHasTry c.stmts || (stmtsAtoms c.stmts).any atomRaises
    || (stmtsConds c.stmts).any condFailure

/-- Step events of a trace: the starts (false) and completions (true) of
smallbaselineApp.py step invocations, with their step names. -/
def stepEvs (evs : List Event) : List (String × Bool) :=
  evs.filterMap (fun e =>
    match e with
    | .shellStart (.sba _ (some s) _) => some (s, false)
    | .shellFinish (.sba _ (some s) _) => some (s, true)
    | _ => none)

/-- The displayed events of a trace. -/
def displayEvs (evs : List Event) : List Event :=
  evs.filter (fun e =>
    match e with
    | .displayed _ => true
    | _ => false)

/-- Whether an atomic statement belongs to the logic the specification allows
the retrieval cell: naming assignments, the external retrieval command
itself, and the fallback instruction print.  (The existence checks are the
conditions of the if statements and are not atoms.) -/
def c6Allowed : Stmt → Bool
  | .assign _ _ => true
  | .shell (.awsS3Cp _ _) => true
  | .printE [.lit m] => m == fallbackMsg
  | _ => false

/-- Whether an atomic statement is a smallbaselineApp.py step invocation. -/
def atomIsStepShell : Stmt → Bool
  | .shell (.sba _ (some _) _) => true
  | _ => false

/-- Whether an atomic statement is the copy of the LASenDT71.txt
configuration file from the work directory into the MintPy directory. -/
def atomIsCfgCopy : Stmt → Bool
  | .shell (.cp (.pathDiv (.var "work_dir") "LASenDT71.txt") (.var "mint_dir")) => true
  | _ => false

/-- The step events contributed by a single event. -/
def stepEv : Event → List (String × Bool)
  | .shellStart (.sba _ (some s) _) => [(s, false)]
  | .shellFinish (.sba _ (some s) _) => [(s, true)]
  | _ => []

/-- The notebook in three segments, split after the environment check and
after the load_data cell, used to organise the analysis of the full run. -/
def phaseACells : List Cell := [cell1, cell2]

def phaseBCells : List Cell := [cell4, cell5, cell7, cell9, cell11, cell13, cell15]

def phaseCCells : List Cell :=
  [cell17, cell19, cell20, cell22, cell24, cell25, cell27, cell29, cell31, cell33,
   cell34, cell37, cell39, cell41, cell43]

/-! ## Concrete sample inputs (used to instantiate the parameterised results) -/

/-- A world matching the intended openSARlab setup: the expected kernel, all
modules importable, the S3 retrieval succeeding with a staged archive. -/
def wStd : World :=
  { condaEnv := insarEnvPath
    hubUser := "jovyan"
    modules := ["url_widget", "IPython.display", "pathlib", "zipfile", "numpy", "mintpy",
                "opensarlab_lib"]
    awsOk := true
    stackMembers := ["LASenDT71.txt", "stack/ifgramStack.h5"]
    fs0 := { files := [], dirs := [], zips := [] } }

/-- The same world on a different conda environment. -/
def wBase : World := { wStd with condaEnv := "/opt/conda" }

/-- A state reaching the final cell: mint_dir and the plotting entry point
bound, contextSwitch unbound. -/
def stC2 : St :=
  { env := [("mint_dir", Value.vpath "/data/MintPy"),
            ("plot_transection", Value.vext "plot_transection")]
    fs := { files := [], dirs := [], zips := [] }
    events := [] }

/-- A state at the download check with the staged archive present on disk. -/
def stC5 : St :=
  { env := [("zipped_path", Value.vpath "/data/Stack.zip"),
            ("work_dir", Value.vpath "/data")]
    fs := { files := ["/data/Stack.zip"], dirs := ["/data"],
            zips := [("/data/Stack.zip", ["LASenDT71.txt", "unwrapped.h5"])] }
    events := [] }

/-- A state at the download check with the archive absent. -/
def stC5n : St :=
  { env := [("zipped_path", Value.vpath "/data/Stack.zip"),
            ("work_dir", Value.vpath "/data")]
    fs := { files := [], dirs := ["/data"], zips := [] }
    events := [] }

/-! ## Helper lemmas about the semantics -/

theorem intercalate_single (s a : String) : String.intercalate s [a] = a := rfl

theorem chain_ok (st : St) (k : St → St × Option Exc) : chain (st, none) k = k st := rfl

theorem chain_err (st : St) (ex : Exc) (k : St → St × Option Exc) :
    chain (st, some ex) k = (st, some ex) := rfl

theorem chain_assoc (r : St × Option Exc) (k1 : St → St × Option Exc)
    (k2 : St → St × Option Exc) :
    chain (chain r k1) k2 = chain r (fun st => chain (k1 st) k2) := by
  rcases r with ⟨st, _ | ex⟩ <;> rfl

theorem chain_ite (P : Prop) [Decidable P] (a b : St × Option Exc) (k : St → St × Option Exc) :
    chain (if P then a else b) k = if P then chain a k else chain b k := by
  by_cases h : P <;> simp [h]

theorem fst_ite (P : Prop) [Decidable P] (a b : St × Option Exc) :
    (if P then a else b).1 = if P then a.1 else b.1 := by
  by_cases h : P <;> simp [h]

theorem snd_ite (P : Prop) [Decidable P] (a b : St × Option Exc) :
    (if P then a else b).2 = if P then a.2 else b.2 := by
  by_cases h : P <;> simp [h]

theorem env_ite (P : Prop) [Decidable P] (a b : St) :
    (if P then a else b).env = if P then a.env else b.env := by
  by_cases h : P <;> simp [h]

theorem events_ite (P : Prop) [Decidable P] (a b : St) :
    (if P then a else b).events = if P then a.events else b.events := by
  by_cases h : P <;> simp [h]

theorem fs_ite (P : Prop) [Decidable P] (a b : St) :
    (if P then a else b).fs = if P then a.fs else b.fs := by
  by_cases h : P <;> simp [h]

theorem stepEvs_ite (P : Prop) [Decidable P] (a b : List Event) :
    stepEvs (if P then a else b) = if P then stepEvs a else stepEvs b := by
  by_cases h : P <;> simp [h]

theorem lookupVar_ite (P : Prop) [Decidable P] (a b : List (String × Value)) (n : String) :
    lookupVar (if P then a else b) n = if P then lookupVar a n else lookupVar b n := by
  by_cases h : P <;> simp [h]

theorem cond_eq_ite_prop (b : Bool) (x y : α) : cond b x y = if b = true then x else y := by
  cases b <;> simp

theorem stepEvs_nil : stepEvs [] = [] := rfl

theorem stepEvs_cons (e : Event) (evs : List Event) :
    stepEvs (e :: evs) = stepEv e ++ stepEvs evs := by
  cases e with
  | shellStart c =>
    cases c with
    | sba cfg d h => cases d <;> rfl
    | awsS3Cp s d => rfl
    | cp s d => rfl
    | other p a => rfl
  | shellFinish c =>
    cases c with
    | sba cfg d h => cases d <;> rfl
    | awsS3Cp s d => rfl
    | cp s d => rfl
    | other p a => rfl
  | displayed t => rfl
  | printed s => rfl
  | called f => rfl

theorem stepEvs_append (a b : List Event) : stepEvs (a ++ b) = stepEvs a ++ stepEvs b := by
  simp [stepEvs]

theorem runCells_append (w : World) (xs : List Cell) :
    ∀ (st : St) (ys : List Cell),
      runCells w st (xs ++ ys) =
        chain (runCells w st xs) (fun st1 => runCells w st1 ys) := by
  induction xs with
  | nil => intro st ys; rfl
  | cons c rest ih =>
    intro st ys
    rw [List.cons_append]
    show chain (execStmts w st c.stmts) (fun st1 => runCells w st1 (rest ++ ys)) = _
    conv_rhs => rw [runCells, chain_assoc]
    exact congrArg _ (funext fun st1 => ih st1 ys)

/-! ## Evaluation lemmas for the individual cells -/

theorem stackCheck_pos (w : World) (st : St) (p q : String)
    (hz : lookupVar st.env "zipped_path" = some (.vpath p))
    (hw : lookupVar st.env "work_dir" = some (.vpath q))
    (hf : st.fs.isFile p = true) :
    execStmt w st stackCheckStmt =
      ({ st with fs := (st.fs.extractTo p q).unlink p,
                 events := st.events ++ [.printed successMsg] }, none) := by
  simp [stackCheckStmt, execStmt, execStmts, chain_ok, chain_err, cond_eq_ite_prop,
    evalCond, eval, hz, hw, hf, Value.render, evalArgs, intercalate_single,
    Except.instMonad, Except.bind, Except.pure]

theorem stackCheck_neg (w : World) (st : St) (p : String)
    (hz : lookupVar st.env "zipped_path" = some (.vpath p))
    (hf : st.fs.isFile p = false) :
    execStmt w st stackCheckStmt =
      ({ st with events := st.events ++ [.printed fallbackMsg] }, none) := by
  simp [stackCheckStmt, execStmt, execStmts, chain_ok, chain_err, cond_eq_ite_prop,
    evalCond, eval, hz, hf, Value.render, evalArgs, intercalate_single,
    Except.instMonad, Except.bind, Except.pure]

theorem cell43_run (w : World) (st : St) (v1 v2 : Value)
    (h1 : lookupVar st.env "mint_dir" = some v1)
    (h2 : lookupVar st.env "plot_transection" = some v2)
    (h3 : lookupVar st.env "contextSwitch" = none) :
    runCells w st [cell43] =
      ({ st with
          env := setVar st.env "scp_args" (Value.vstr (v1.render ++ "/velocity.h5 --start-lalo 33.75 -118.38 --end-lalo 33.72 -118.3 ")),
          events := st.events ++ [.called "plot_transection.main"] },
        some (.nameErr "contextSwitch")) := by
  simp [cell43, runCells, execStmt, execStmts, chain_ok, chain_err, eval, lookupVar,
    setVar, h1, h2, h3, exprName, Except.instMonad, Except.bind, Except.pure]

theorem phaseA_run (w : World)
    (h1 : "url_widget" ∈ w.modules)
    (h2 : "IPython.display" ∈ w.modules) :
    (runCells w (initSt w) phaseACells).2 = none ∧
    stepEvs (runCells w (initSt w) phaseACells).1.events = [] ∧
    lookupVar (runCells w (initSt w) phaseACells).1.env "contextSwitch" = none ∧
    lookupVar (runCells w (initSt w) phaseACells).1.env "type" = some (Value.vext "type") := by
  by_cases hc0 : w.condaEnv = "" <;>
  by_cases hc : w.condaEnv = "/home/jovyan/.local/envs/insar_analysis" <;>
  (try (rw [hc0] at hc; simp at hc)) <;>
  · simp [phaseACells, cell1, cell2, runCells, execStmt, execStmts, chain_ok, chain_err,
      chain_ite, cond_eq_ite_prop, fst_ite, snd_ite, env_ite, events_ite, stepEvs_ite,
      lookupVar_ite, stepEvs_nil, stepEvs_cons, stepEvs_append, stepEv,
      eval, evalCond, lookupVar, setVar, initSt, builtinNames, resolveCmd, evalArgs,
      shellResult, shellFx, Value.render, insarEnvPath, exprName, hc0, hc, h1, h2,
      Except.instMonad, Except.bind, Except.pure]

set_option maxHeartbeats 1000000 in
theorem phaseB_run (w : World) (st : St)
    (h3 : "pathlib" ∈ w.modules)
    (h4 : "zipfile" ∈ w.modules)
    (h5 : "numpy" ∈ w.modules)
    (h6 : "mintpy" ∈ w.modules)
    (h7 : "opensarlab_lib" ∈ w.modules)
    (ht : lookupVar st.env "type" = some (Value.vext "type")) :
    (runCells w st phaseBCells).2 = none ∧
    stepEvs (runCells w st phaseBCells).1.events =
      stepEvs st.events ++ [("load_data", false), ("load_data", true)] ∧
    lookupVar (runCells w st phaseBCells).1.env "mint_dir" =
      some (Value.vpath (workDirPath ++ "/" ++ "MintPy")) ∧
    lookupVar (runCells w st phaseBCells).1.env "asfn" = some (Value.vext "asfn") ∧
    lookupVar (runCells w st phaseBCells).1.env "view" = some (Value.vext "view") ∧
    lookupVar (runCells w st phaseBCells).1.env "plot_network" =
      some (Value.vext "plot_network") ∧
    lookupVar (runCells w st phaseBCells).1.env "plot_transection" =
      some (Value.vext "plot_transection") ∧
    lookupVar (runCells w st phaseBCells).1.env "contextSwitch" =
      lookupVar st.env "contextSwitch" := by
  by_cases haws : w.awsOk = true <;>
  · simp [phaseBCells, cell4, cell5, cell7, cell9, cell11, cell13, cell15, stackCheckStmt,
      runCells, execStmt, execStmts, chain_ok, chain_err, chain_ite, cond_eq_ite_prop,
      fst_ite, snd_ite, env_ite, events_ite, fs_ite, stepEvs_ite, lookupVar_ite,
      stepEvs_nil, stepEvs_cons, stepEvs_append, stepEv,
      eval, evalCond, lookupVar, setVar,
      resolveCmd, evalArgs, shellResult, shellFx, Value.render, exprName, Exc.cls,
      workDirPath, successMsg, fallbackMsg,
      FS.isFile, FS.pathExists, FS.mkdir, FS.putFile, FS.extractTo, FS.unlink, FS.members,
      haws, h3, h4, h5, h6, h7, ht,
      Except.instMonad, Except.bind, Except.pure]

set_option maxHeartbeats 1000000 in
theorem phaseC_run (w : World) (st : St) (vm va vv vpn vpt : Value)
    (hm : lookupVar st.env "mint_dir" = some vm)
    (ha : lookupVar st.env "asfn" = some va)
    (hv : lookupVar st.env "view" = some vv)
    (hpn : lookupVar st.env "plot_network" = some vpn)
    (hpt : lookupVar st.env "plot_transection" = some vpt)
    (hcs : lookupVar st.env "contextSwitch" = none) :
    (runCells w st phaseCCells).2 = some (.nameErr "contextSwitch") ∧
    stepEvs (runCells w st phaseCCells).1.events =
      stepEvs st.events ++
        [("modify_network", false), ("modify_network", true),
         ("reference_point", false), ("reference_point", true),
         ("invert_network", false), ("invert_network", true),
         ("velocity", false), ("velocity", true)] := by
  simp [phaseCCells, cell17, cell19, cell20, cell22, cell24, cell25, cell27, cell29,
    cell31, cell33, cell34, cell37, cell39, cell41, cell43,
    runCells, execStmt, execStmts, chain_ok, chain_err,
    stepEvs_nil, stepEvs_cons, stepEvs_append, stepEv,
    eval, evalCond, lookupVar, setVar,
    resolveCmd, evalArgs, shellResult, shellFx, Value.render, exprName, Exc.cls,
    hm, ha, hv, hpn, hpt, hcs,
    Except.instMonad, Except.bind, Except.pure]

/-! ## The claims -/

/-- C1: the notebook passes exactly the six processing steps load_data,
modify_network, reference_point, invert_network, velocity, google_earth to
smallbaselineApp.py via the dostep option, each exactly once, in that order,
and passes no step name outside this set: the list of dostep arguments over
all shell commands of the notebook, in textual order, is exactly that
six-element list. -/
theorem c1_steps_exact :
    notebookSteps =
      ["load_data", "modify_network", "reference_point", "invert_network",
       "velocity", "google_earth"] := rfl

/-- C2: contextSwitch is never defined or imported by any cell of the
notebook and is not an IPython builtin; consequently, in every execution
reaching the final cell in order (any state binding mint_dir and
plot_transection, as the preceding cells do, and not binding contextSwitch),
evaluating the final cell raises NameError and adds no pipeline-step event:
the google_earth step is never invoked. -/
theorem c2_contextswitch_nameerror :
    ((notebookDefinedNames ++ builtinNames).contains "contextSwitch" = false) ∧
    ∀ (w : World) (st : St) (v1 v2 : Value),
      lookupVar st.env "mint_dir" = some v1 →
      lookupVar st.env "plot_transection" = some v2 →
      lookupVar st.env "contextSwitch" = none →
      (runCells w st [cell43]).2 = some (.nameErr "contextSwitch") ∧
      stepEvs (runCells w st [cell43]).1.events = stepEvs st.events := by
  constructor
  · rfl
  · intro w st v1 v2 h1 h2 h3
    rw [cell43_run w st v1 v2 h1 h2 h3]
    exact ⟨rfl, by simp [stepEvs_append, stepEvs_cons, stepEvs_nil, stepEv]⟩

/-- C2 witness: a concrete state with mint_dir and plot_transection bound and
contextSwitch unbound: the final cell ends in NameError with no new step
event. -/
theorem c2_contextswitch_nameerror_witness :
    (runCells wStd stC2 [cell43]).2 = some (Exc.nameErr "contextSwitch") ∧
    stepEvs (runCells wStd stC2 [cell43]).1.events = stepEvs stC2.events :=
  c2_contextswitch_nameerror.2 wStd stC2 _ _ rfl rfl rfl

/-- C3 counterexample: the claim that the environment-mismatch check (cell 2)
and the post-download file-existence check (cell 5) are the only original
error-handling constructs is false: cell 4 catches ImportError around the
mintpy imports and re-raises ImportError. -/
theorem c3_error_handling_counterexample :
    (notebookCells.all fun c => !(cellHandlesErr c) || (c.id == 2 || c.id == 5)) = false ∧
    cellHandlesErr cell4 = true ∧ cell4.id = 4 := ⟨rfl, rfl, rfl⟩

/-- C3 amended: the environment-mismatch check (cell 2), the mintpy
installation check (cell 4: try/except ImportError re-raising ImportError),
and the post-download file-existence check (cell 5) are the only cells of
the notebook that catch an exception, raise an exception, or branch on a
failure condition. -/
theorem c3_error_handling_amended :
    (notebookCells.all fun c =>
      !(cellHandlesErr c) || (c.id == 2 || c.id == 4 || c.id == 5)) = true := rfl

/-- C4: for every CONDA_PREFIX value different from the insar_analysis
environment path the environment check of cell 2 displays warning Markdown
and execution completes normally (no exception, so the run continues with
the next cell); for the matching value it displays nothing.  The cells run
from the initial state of any world whose modules include the two imports of
cells 1 and 2. -/
theorem c4_env_check_warns (w : World)
    (h1 : "url_widget" ∈ w.modules)
    (h2 : "IPython.display" ∈ w.modules) :
    (runCells w (initSt w) [cell1, cell2]).2 = none ∧
    (w.condaEnv ≠ insarEnvPath →
      displayEvs (runCells w (initSt w) [cell1, cell2]).1.events ≠ []) ∧
    (w.condaEnv = insarEnvPath →
      displayEvs (runCells w (initSt w) [cell1, cell2]).1.events = []) := by
  by_cases hc0 : w.condaEnv = "" <;>
  by_cases hc : w.condaEnv = "/home/jovyan/.local/envs/insar_analysis" <;>
  (try (rw [hc0] at hc; simp at hc)) <;>
  · simp [cell1, cell2, runCells, execStmt, execStmts, chain_ok, chain_err, chain_ite,
      cond_eq_ite_prop, fst_ite, snd_ite, env_ite, events_ite,
      eval, evalCond, lookupVar, setVar, initSt, builtinNames, resolveCmd, evalArgs,
      shellResult, shellFx, Value.render, displayEvs, insarEnvPath, exprName, hc0, hc, h1, h2,
      Except.instMonad, Except.bind, Except.pure]

/-- C4 witness: in a world on a different conda environment the two setup
cells complete without an exception and the warning displays are nonempty. -/
theorem c4_env_check_warns_witness :
    (runCells wBase (initSt wBase) [cell1, cell2]).2 = none ∧
    displayEvs (runCells wBase (initSt wBase) [cell1, cell2]).1.events ≠ [] :=
  ⟨(c4_env_check_warns wBase (by decide) (by decide)).1,
   (c4_env_check_warns wBase (by decide) (by decide)).2.1 (by decide)⟩

/-- C5: the download verification of cell 5, run from any state binding
zipped_path and work_dir to the archive path and the work directory: when
the archive file exists it is extracted into the work directory, the success
message is printed, and the archive is removed; when it does not exist only
the fallback instruction is printed, no exception is raised, and the
filesystem is unchanged. -/
theorem c5_download_check (w : World) (st : St) (p q : String)
    (hz : lookupVar st.env "zipped_path" = some (.vpath p))
    (hw : lookupVar st.env "work_dir" = some (.vpath q)) :
    (st.fs.isFile p = true →
      execStmt w st stackCheckStmt =
        ({ st with fs := (st.fs.extractTo p q).unlink p,
                   events := st.events ++ [.printed successMsg] }, none)) ∧
    (st.fs.isFile p = false →
      execStmt w st stackCheckStmt =
        ({ st with events := st.events ++ [.printed fallbackMsg] }, none)) :=
  ⟨fun hf => stackCheck_pos w st p q hz hw hf,
   fun hf => stackCheck_neg w st p hz hf⟩

/-- C5 witness: the check evaluated at a concrete state with the archive
present, and at one with it absent. -/
theorem c5_download_check_witness :
    execStmt wStd stC5 stackCheckStmt =
      ({ stC5 with fs := (stC5.fs.extractTo "/data/Stack.zip" "/data").unlink "/data/Stack.zip",
                   events := stC5.events ++ [.printed successMsg] }, none) ∧
    execStmt wStd stC5n stackCheckStmt =
      ({ stC5n with events := stC5n.events ++ [.printed fallbackMsg] }, none) :=
  ⟨(c5_download_check wStd stC5 "/data/Stack.zip" "/data" rfl rfl).1 rfl,
   (c5_download_check wStd stC5n "/data/Stack.zip" "/data" rfl rfl).2 rfl⟩

/-- C6 counterexample: the claim that the retrieval cell performs no original
effect beyond the existence check and the fallback message is false: its
atomic statements also create the work directory, extract the archive, print
a success message and delete the zip file. -/
theorem c6_retrieval_effects_counterexample :
    ((stmtsAtoms cell5.stmts).all c6Allowed) = false ∧
    ((stmtsAtoms cell5.stmts).any fun s => !(c6Allowed s)) = true := ⟨rfl, rfl⟩

/-- C6 amended: the atomic statements of the retrieval cell are exactly: the
two path assignments, the conditional work-directory creation, the external
retrieval command, and, under the existence check, extraction into the work
directory, the success print and the archive deletion on success, or the
fallback print on failure. -/
theorem c6_retrieval_effects_amended :
    stmtsAtoms cell5.stmts =
      [.assign "work_dir" (.call1 (.var "Path") (.lit workDirPath)),
       .mkdir (.var "work_dir"),
       .assign "zipped_path" (.pathDiv (.var "work_dir") "Stack.zip"),
       .shell (.awsS3Cp "s3://asf-jupyter-data-west/Fielding/Stack.zip" (.var "zipped_path")),
       .extractAllZip (.strOf (.var "zipped_path")) (.var "work_dir"),
       .printE [.lit successMsg],
       .unlink (.var "zipped_path"),
       .printE [.lit fallbackMsg]] := rfl

/-- C7 counterexample: the claim that every step-runner invocation passes
LASenDT71.txt is false: the sixth invocation, the google_earth step, passes
smallbaselineApp.cfg. -/
theorem c7_config_usage_counterexample :
    (sbaInvocs.all fun x => x.1 == some "LASenDT71.txt") = false ∧
    sbaInvocs.getD 5 (none, "") = (some "smallbaselineApp.cfg", "google_earth") := ⟨rfl, rfl⟩

/-- C7 amended: LASenDT71.txt is copied from the work directory into the
MintPy directory before the first pipeline step invocation, the first five
step invocations pass LASenDT71.txt, and the final google_earth invocation
passes smallbaselineApp.cfg. -/
theorem c7_config_usage_amended :
    sbaInvocs =
      [(some "LASenDT71.txt", "load_data"), (some "LASenDT71.txt", "modify_network"),
       (some "LASenDT71.txt", "reference_point"), (some "LASenDT71.txt", "invert_network"),
       (some "LASenDT71.txt", "velocity"), (some "smallbaselineApp.cfg", "google_earth")] ∧
    ((notebookAtoms.takeWhile fun s => !(atomIsStepShell s)).any atomIsCfgCopy) = true :=
  ⟨rfl, rfl⟩

/-- C8: no step invocation of smallbaselineApp.py has its IPython result
object captured in a variable (the only channel for inspecting the exit
status), no step invocation lies inside a try/except construct, and no step
name is invoked twice (no retry); a failing step therefore propagates as an
uncaught process failure. -/
theorem c8_no_exit_status_handling :
    (boundShellCmds.all fun c => !(isSbaStep c)) = true ∧
    tryShellCmds = [] ∧
    notebookSteps.Nodup := ⟨rfl, rfl, by decide⟩

/-- C9: whenever the archive exists at the target path (and no archive
member extracts onto the archive path itself), the successful-retrieval
branch leaves a filesystem where the zip file no longer exists while every
extracted member does exist under the work directory. -/
theorem c9_extract_then_unlink (w : World) (st : St) (p q : String)
    (hz : lookupVar st.env "zipped_path" = some (.vpath p))
    (hw : lookupVar st.env "work_dir" = some (.vpath q))
    (hf : st.fs.isFile p = true)
    (hmem : ∀ m ∈ st.fs.members p, ¬(q ++ "/" ++ m = p)) :
    ((execStmt w st stackCheckStmt).1.fs.isFile p = false) ∧
    ∀ m ∈ st.fs.members p,
      (execStmt w st stackCheckStmt).1.fs.isFile (q ++ "/" ++ m) = true := by
  rw [stackCheck_pos w st p q hz hw hf]
  constructor
  · simp [FS.unlink, FS.isFile, List.mem_filter]
  · intro m hm
    simp [FS.unlink, FS.extractTo, FS.isFile, List.mem_filter, List.mem_append,
      List.mem_map]
    exact Or.inl ⟨⟨m, hm, rfl⟩, hmem m hm⟩

/-- C9 witness: at a concrete state with the staged archive on disk, after
the check the zip is gone and both members exist under the work directory. -/
theorem c9_extract_then_unlink_witness :
    ((execStmt wStd stC5 stackCheckStmt).1.fs.isFile "/data/Stack.zip" = false) ∧
    ∀ m ∈ stC5.fs.members "/data/Stack.zip",
      (execStmt wStd stC5 stackCheckStmt).1.fs.isFile ("/data" ++ "/" ++ m) = true :=
  c9_extract_then_unlink wStd stC5 "/data/Stack.zip" "/data" rfl rfl rfl (by decide)

/-- C10: for every world in which the notebook imports succeed, running all
cells in order yields a pipeline-step trace in which each step invocation is
blocking: each step completes (its finish event) before the next step starts,
in the order load_data, modify_network, reference_point, invert_network,
velocity, with nothing interleaved (the google_earth step never starts, the
final cell failing first on the undefined contextSwitch). -/
theorem c10_blocking_step_order (w : World)
    (h1 : "url_widget" ∈ w.modules)
    (h2 : "IPython.display" ∈ w.modules)
    (h3 : "pathlib" ∈ w.modules)
    (h4 : "zipfile" ∈ w.modules)
    (h5 : "numpy" ∈ w.modules)
    (h6 : "mintpy" ∈ w.modules)
    (h7 : "opensarlab_lib" ∈ w.modules) :
    stepEvs (runCells w (initSt w) notebookCells).1.events =
      [("load_data", false), ("load_data", true),
       ("modify_network", false), ("modify_network", true),
       ("reference_point", false), ("reference_point", true),
       ("invert_network", false), ("invert_network", true),
       ("velocity", false), ("velocity", true)] := by
  obtain ⟨ha2, haevs, hacs, hat⟩ := phaseA_run w h1 h2
  have hsplit : notebookCells = phaseACells ++ (phaseBCells ++ phaseCCells) := rfl
  rw [hsplit, runCells_append]
  rw [show runCells w (initSt w) phaseACells =
    ((runCells w (initSt w) phaseACells).1, none) from by rw [← ha2]]
  rw [chain_ok]
  obtain ⟨hb2, hbevs, hbm, hba, hbv, hbpn, hbpt, hbcs⟩ :=
    phaseB_run w (runCells w (initSt w) phaseACells).1 h3 h4 h5 h6 h7 hat
  rw [runCells_append]
  rw [show runCells w (runCells w (initSt w) phaseACells).1 phaseBCells =
    ((runCells w (runCells w (initSt w) phaseACells).1 phaseBCells).1, none) from
      by rw [← hb2]]
  rw [chain_ok]
  obtain ⟨hc2, hcevs⟩ :=
    phaseC_run w (runCells w (runCells w (initSt w) phaseACells).1 phaseBCells).1
      _ _ _ _ _ hbm hba hbv hbpn hbpt (by rw [hbcs, hacs])
  rw [hcevs, hbevs, haevs]
  simp

/-- C10 witness: the step trace of the full run in the standard openSARlab
world. -/
theorem c10_blocking_step_order_witness :
    stepEvs (runCells wStd (initSt wStd) notebookCells).1.events =
      [("load_data", false), ("load_data", true),
       ("modify_network", false), ("modify_network", true),
       ("reference_point", false), ("reference_point", true),
       ("invert_network", false), ("invert_network", true),
       ("velocity", false), ("velocity", true)] :=
  c10_blocking_step_order wStd (by decide) (by decide) (by decide) (by decide)
    (by decide) (by decide) (by decide)
